import Mathlib

/-
Verification development for the vaultier crate: a thin convenience client
for reading and writing versioned secrets in a Hashicorp-Vault-style
key-value (KV2) store.  The embedding below mirrors the four source files
(src/lib.rs, src/error.rs, src/auth.rs, src/metadata.rs).

Modelling conventions:
  * The underlying vaultrs store (kv2::read, kv2::read_version,
    kv2::read_metadata, kv2::set, kv2::set_with_options) is an external
    collaborator; it is modelled as an oracle `Kv2` mapping each request to
    an `Except ClientError` response.  Each client operation additionally
    returns the list of outbound store calls it issued, in order, so that
    path composition and call counts are observable.
  * The filesystem is an oracle `String -> Option String` (`none` = file
    unreadable); functions that touch it also return the list of file
    paths they attempted to open.
  * The environment is an oracle `String -> Option String` (`none` =
    lookup failed, as std::env::var's Err).
  * Secret payloads (the generic `A : Serialize/Deserialize` parameter of
    the Rust functions) are modelled by an abstract `Value`;
    (de)serialization is owned by the wrapped library and out of scope.
-/

namespace Vaultier

/-- Serialized secret payload: stands for the generic `A` parameter of the
Rust operations (serde handles the actual encoding, which is external). -/
abbrev Value := String

/-- vaultrs::error::ClientError, abridged to the shape vaultier inspects:
the `APIError { code, errors }` variant (matched on in
read_secrets_internal) and an opaque catch-all for every other variant. -/
inductive ClientError where
  | APIError (code : Nat) (errors : List String)
  | other (message : String)
deriving DecidableEq

/-- vaultrs::api::kv2::responses::ReadSecretMetadataResponse, abridged:
vaultier only reads `current_version` from it and passes the rest through. -/
structure ReadSecretMetadataResponse where
  created_time : String
  current_version : Nat
  max_versions : Nat
  oldest_version : Nat
  updated_time : String
deriving DecidableEq

/-- vaultrs::api::kv2::responses::SecretVersionMetadata, passed through
unchanged by the set operations. -/
structure SecretVersionMetadata where
  created_time : String
  deletion_time : Option String
  destroyed : Bool
  version : Nat
deriving DecidableEq

/-- vaultrs::client::VaultClientSettings as far as vaultier supplies them:
an address and a token (lib.rs create_internal). -/
structure VaultClientSettings where
  address : String
  token : String
deriving DecidableEq

/-- vaultrs::client::VaultClient: the connection handle; vaultier treats it
as opaque after construction. -/
structure VaultClient where
  settings : VaultClientSettings
deriving DecidableEq

/-- The vaultier domain error (src/error.rs together with the variants the
rest of the crate constructs).  src/error.rs itself declares only the
first three variants (VaultClient, VaultClientSettings, IO); lib.rs
additionally constructs `PathNotFound` (line 195) and metadata.rs
constructs `Api { status, message }` (line 44) and converts reqwest
(transport) and serde_json errors with `?`.  The embedding carries the
union so that those constructions are expressible; `declaredErrorVariants`
below records what error.rs actually declares.  The IO variant is named
`Io` here. -/
inductive VaultierError where
  | VaultClient (e : ClientError)
  | VaultClientSettings (message : String)
  | Io (message : String)
  | PathNotFound (path : String)
  | Api (status : Nat) (message : String)
  | Http (message : String)
  | Json (message : String)
deriving DecidableEq

/-- The Rust-source name of a VaultierError variant. -/
def VaultierError.variantName : VaultierError → String
  | .VaultClient _ => "VaultClient"
  | .VaultClientSettings _ => "VaultClientSettings"
  | .Io _ => "IO"
  | .PathNotFound _ => "PathNotFound"
  | .Api _ _ => "Api"
  | .Http _ => "Http"
  | .Json _ => "Json"

/-- The variants the enum in src/error.rs (lines 6-11) declares. -/
def declaredErrorVariants : List String :=
  ["VaultClient", "VaultClientSettings", "IO"]

/-- The closed error taxonomy the spec lists (section 7): the three
declared variants plus path-not-found and the metadata-variant errors. -/
def specErrorVariants : List String :=
  ["VaultClient", "VaultClientSettings", "IO", "PathNotFound",
   "Api", "Http", "Json"]

/-- One outbound call to the underlying kv2 store, as issued by vaultier
(mount and full path exactly as handed to vaultrs). -/
inductive StoreCall where
  | read (mount path : String)
  | readVersion (mount path : String) (version : Nat)
  | readMetadata (mount path : String)
  | set (mount path : String) (data : Value)
  | setWithOptions (mount path : String) (data : Value) (cas : Nat)
deriving DecidableEq

/-- Oracle for the underlying vaultrs kv2 store: the response it would
give to each possible request.  External collaborator, not vaultier code. -/
structure Kv2 where
  readResp : String → String → Except ClientError Value
  readVersionResp : String → String → Nat → Except ClientError Value
  readMetadataResp : String → String → Except ClientError ReadSecretMetadataResponse
  setResp : String → String → Value → Except ClientError SecretVersionMetadata
  setWithOptionsResp : String → String → Value → Nat → Except ClientError SecretVersionMetadata

/-- Oracle for the external vaultrs construction steps used by
create_internal: `VaultClientSettingsBuilder::build()` (fails with a
builder error, e.g. on an invalid address) and `VaultClient::new`. -/
structure VaultrsEnv where
  buildSettings : String → String → Except String VaultClientSettings
  clientNew : VaultClientSettings → Except ClientError VaultClient

/-- src/lib.rs SecretClient: a VaultClient handle, the KV2 mount and the
base path. -/
structure SecretClient where
  client : VaultClient
  mount : String
  base_path : String
deriving DecidableEq

/-- src/lib.rs WriteSecretOptions: data, optional path, optional cas
version. -/
structure WriteSecretOptions where
  data : Value
  path : Option String
  version : Option Nat
deriving DecidableEq

/-- src/lib.rs SecretWithMetaData: secret data including metadata. -/
structure SecretWithMetaData where
  data : Value
  metadata : ReadSecretMetadataResponse
deriving DecidableEq

/-- src/lib.rs VAULT_TOKEN_PATH constant. -/
def VAULT_TOKEN_PATH : String := "/vault/secrets/token"

/-- src/lib.rs read_token_from (lines 264-269): File::open + read_to_string,
an unreadable file becomes VaultierError::IO via the From impl.  Also
returns the list of file paths whose open was attempted. -/
def read_token_from (fs : String → Option String) (path : String) :
    Except VaultierError String × List String :=
  match fs path with
  | none => (Except.error (VaultierError.Io ("cannot open " ++ path)), [path])
  | some contents => (Except.ok contents, [path])

/-- src/lib.rs create_internal (lines 128-141): build the client settings
from address and token (builder failure maps to
VaultierError::VaultClientSettings via From), construct the VaultClient
(failure maps to VaultierError::VaultClient), then assemble the
SecretClient record. -/
def create_internal (env : VaultrsEnv)
    (address mount base_path token : String) :
    Except VaultierError SecretClient :=
  match env.buildSettings address token with
  | Except.error e => Except.error (VaultierError.VaultClientSettings e)
  | Except.ok settings =>
    match env.clientNew settings with
    | Except.error e => Except.error (VaultierError.VaultClient e)
    | Except.ok client => Except.ok { client := client, mount := mount, base_path := base_path }

/-- src/lib.rs SecretClient::new (lines 94-107): use the explicit token if
given, otherwise read it from VAULT_TOKEN_PATH; then create_internal.
The second component lists the file paths whose open was attempted. -/
def SecretClient.new (env : VaultrsEnv) (fs : String → Option String)
    (address mount base_path : String) (token : Option String) :
    Except VaultierError SecretClient × List String :=
  match token with
  | some t => (create_internal env address mount base_path t, [])
  | none =>
    match read_token_from fs VAULT_TOKEN_PATH with
    | (Except.error e, reads) => (Except.error e, reads)
    | (Except.ok t, reads) => (create_internal env address mount base_path t, reads)

/-- The 404 translation inside src/lib.rs read_secrets_internal
(lines 194-201): `if let Err(ClientError::APIError { code: 404, .. })` the
result becomes PathNotFound("<mount>/data/<path>"); any other error is
wrapped by `Ok(secrets?)` into VaultierError::VaultClient via From. -/
def translate404 (mount path : String) (secrets : Except ClientError Value) :
    Except VaultierError Value :=
  match secrets with
  | Except.error (ClientError.APIError code errors) =>
    if code = 404 then
      Except.error (VaultierError.PathNotFound (mount ++ "/data/" ++ path))
    else
      Except.error (VaultierError.VaultClient (ClientError.APIError code errors))
  | Except.error e => Except.error (VaultierError.VaultClient e)
  | Except.ok v => Except.ok v

/-- src/lib.rs read_secrets_internal (lines 184-202): issue kv2::read or,
when a version is pinned, kv2::read_version, then apply the 404
translation. -/
def read_secrets_internal (self : SecretClient) (store : Kv2)
    (path : String) (version : Option Nat) :
    Except VaultierError Value × List StoreCall :=
  match version with
  | some v =>
    (translate404 self.mount path (store.readVersionResp self.mount path v),
     [StoreCall.readVersion self.mount path v])
  | none =>
    (translate404 self.mount path (store.readResp self.mount path),
     [StoreCall.read self.mount path])

/-- src/lib.rs read_secrets (lines 145-151): read from the base path. -/
def read_secrets (self : SecretClient) (store : Kv2) :
    Except VaultierError Value × List StoreCall :=
  read_secrets_internal self store self.base_path none

/-- src/lib.rs read_secrets_from (lines 154-162): read from
`format!("{}/{}", base_path, path)`. -/
def read_secrets_from (self : SecretClient) (store : Kv2) (path : String) :
    Except VaultierError Value × List StoreCall :=
  read_secrets_internal self store (self.base_path ++ "/" ++ path) none

/-- src/lib.rs read_secrets_with_metadata (lines 164-182): take the given
path verbatim (or base_path when absent), fetch the metadata with
kv2::read_metadata (its error propagates untranslated via `?`), then read
the secret pinned at metadata.current_version and bundle both. -/
def read_secrets_with_metadata (self : SecretClient) (store : Kv2)
    (pathOpt : Option String) :
    Except VaultierError SecretWithMetaData × List StoreCall :=
  let path := pathOpt.getD self.base_path
  match store.readMetadataResp self.mount path with
  | Except.error e =>
    (Except.error (VaultierError.VaultClient e),
     [StoreCall.readMetadata self.mount path])
  | Except.ok metadata =>
    match read_secrets_internal self store path (some metadata.current_version) with
    | (Except.error e, calls) =>
      (Except.error e, StoreCall.readMetadata self.mount path :: calls)
    | (Except.ok data, calls) =>
      (Except.ok { data := data, metadata := metadata },
       StoreCall.readMetadata self.mount path :: calls)

/-- src/lib.rs set_secrets_internal (lines 222-234): a single kv2::set,
errors wrapped into VaultierError::VaultClient by `?`. -/
def set_secrets_internal (self : SecretClient) (store : Kv2)
    (path : String) (data : Value) :
    Except VaultierError SecretVersionMetadata × List StoreCall :=
  match store.setResp self.mount path data with
  | Except.error e =>
    (Except.error (VaultierError.VaultClient e), [StoreCall.set self.mount path data])
  | Except.ok m => (Except.ok m, [StoreCall.set self.mount path data])

/-- src/lib.rs set_secrets (lines 205-211): set in the base path. -/
def set_secrets (self : SecretClient) (store : Kv2) (data : Value) :
    Except VaultierError SecretVersionMetadata × List StoreCall :=
  set_secrets_internal self store self.base_path data

/-- src/lib.rs set_secrets_in (lines 214-220): set in
`format!("{}/{}", base_path, path)`. -/
def set_secrets_in (self : SecretClient) (store : Kv2)
    (path : String) (data : Value) :
    Except VaultierError SecretVersionMetadata × List StoreCall :=
  set_secrets_internal self store (self.base_path ++ "/" ++ path) data

/-- src/lib.rs set_secrets_with_options (lines 236-261): take options.path
verbatim (or base_path when absent); with a version use
kv2::set_with_options with that version as cas, otherwise kv2::set;
errors wrapped into VaultierError::VaultClient by `?`. -/
def set_secrets_with_options (self : SecretClient) (store : Kv2)
    (options : WriteSecretOptions) :
    Except VaultierError SecretVersionMetadata × List StoreCall :=
  let path := options.path.getD self.base_path
  match options.version with
  | some cas =>
    match store.setWithOptionsResp self.mount path options.data cas with
    | Except.error e =>
      (Except.error (VaultierError.VaultClient e),
       [StoreCall.setWithOptions self.mount path options.data cas])
    | Except.ok m =>
      (Except.ok m, [StoreCall.setWithOptions self.mount path options.data cas])
  | none =>
    match store.setResp self.mount path options.data with
    | Except.error e =>
      (Except.error (VaultierError.VaultClient e),
       [StoreCall.set self.mount path options.data])
    | Except.ok m => (Except.ok m, [StoreCall.set self.mount path options.data])

/-- src/auth.rs K8S_JWT constant. -/
def K8S_JWT : String := "K8S_JWT"

/-- src/auth.rs SERVICE_TOKEN_PATH constant. -/
def SERVICE_TOKEN_PATH : String :=
  "/var/run/secrets/kubernetes.io/serviceaccount/token"

/-- src/auth.rs service_account_jwt (lines 24-31): try the K8S_JWT
environment variable first; on lookup failure fall back to reading the
mounted service-account token file.  The environment oracle returns `none`
when std::env::var would return Err; the second component lists the file
paths whose open was attempted. -/
def service_account_jwt (envVar : String → Option String)
    (fs : String → Option String) :
    Except VaultierError String × List String :=
  match envVar K8S_JWT with
  | some token => (Except.ok token, [])
  | none => read_token_from fs SERVICE_TOKEN_PATH

/-- Equality of Except values is decidable when it is on both sides. -/
instance {ε α : Type} [DecidableEq ε] [DecidableEq α] :
    DecidableEq (Except ε α) := fun a b =>
  match a, b with
  | Except.error e, Except.error f =>
    if h : e = f then Decidable.isTrue (congrArg Except.error h)
    else Decidable.isFalse (fun hc => h (Except.error.inj hc))
  | Except.ok x, Except.ok y =>
    if h : x = y then Decidable.isTrue (congrArg Except.ok h)
    else Decidable.isFalse (fun hc => h (Except.ok.inj hc))
  | Except.error _, Except.ok _ => Decidable.isFalse (fun hc => Except.noConfusion hc)
  | Except.ok _, Except.error _ => Decidable.isFalse (fun hc => Except.noConfusion hc)

/-- Outcome of the raw reqwest POST in src/metadata.rs: the send itself
can fail (transport), or a response arrives with a status and a body whose
retrieval (bytes()/text()) can itself fail (transport). -/
inductive HttpOutcome where
  | sendFail (message : String)
  | response (status : Nat) (body : Except String String)
deriving DecidableEq

/-- src/metadata.rs set_metadata_internal together with
handle_ok_response and handle_error (lines 14-45): POST the metadata; a
transport failure maps to the transport error variant, a 200 response has
its body JSON-decoded (decode failure is the JSON error variant), any
other status yields VaultierError::Api { status, message } with the
response text as message.  The JSON decoding of the response body is
serde_json, external, so it is an oracle argument. -/
def set_metadata_internal (send : HttpOutcome)
    (decode : String → Except String SecretVersionMetadata) :
    Except VaultierError SecretVersionMetadata :=
  match send with
  | HttpOutcome.sendFail e => Except.error (VaultierError.Http e)
  | HttpOutcome.response status body =>
    if status = 200 then
      match body with
      | Except.error e => Except.error (VaultierError.Http e)
      | Except.ok content =>
        match decode content with
        | Except.error e => Except.error (VaultierError.Json e)
        | Except.ok v => Except.ok v
    else
      match body with
      | Except.error e => Except.error (VaultierError.Http e)
      | Except.ok message => Except.error (VaultierError.Api status message)

/-- The six public secret operations of the client, as one sum type, so
that properties over all of them can be stated uniformly. -/
inductive Operation where
  | opReadSecrets
  | opReadSecretsFrom (path : String)
  | opReadSecretsWithMetadata (path : Option String)
  | opSetSecrets (data : Value)
  | opSetSecretsIn (path : String) (data : Value)
  | opSetSecretsWithOptions (options : WriteSecretOptions)

/-- Result value of an operation (the three result types of the six
operations). -/
inductive OpResult where
  | secret (v : Value)
  | secretWithMetadata (s : SecretWithMetaData)
  | versionMetadata (m : SecretVersionMetadata)

/-- Run one public operation against the client.  Every Rust operation
takes `&self` (a shared borrow): the embedding threads the client state
explicitly and returns the post-state, which the code leaves untouched. -/
def SecretClient.run (self : SecretClient) (store : Kv2) (op : Operation) :
    (Except VaultierError OpResult × List StoreCall) × SecretClient :=
  match op with
  | Operation.opReadSecrets =>
    let (r, t) := read_secrets self store
    ((r.map OpResult.secret, t), self)
  | Operation.opReadSecretsFrom p =>
    let (r, t) := read_secrets_from self store p
    ((r.map OpResult.secret, t), self)
  | Operation.opReadSecretsWithMetadata p =>
    let (r, t) := read_secrets_with_metadata self store p
    ((r.map OpResult.secretWithMetadata, t), self)
  | Operation.opSetSecrets d =>
    let (r, t) := set_secrets self store d
    ((r.map OpResult.versionMetadata, t), self)
  | Operation.opSetSecretsIn p d =>
    let (r, t) := set_secrets_in self store p d
    ((r.map OpResult.versionMetadata, t), self)
  | Operation.opSetSecretsWithOptions o =>
    let (r, t) := set_secrets_with_options self store o
    ((r.map OpResult.versionMetadata, t), self)

/-- A concrete client fixture used by counterexamples and witnesses. -/
def cl0 : SecretClient :=
  { client := { settings := { address := "http://vault.local", token := "tok" } },
    mount := "m", base_path := "base" }

/-- A concrete metadata response with current_version 3. -/
def md0 : ReadSecretMetadataResponse :=
  { created_time := "t0", current_version := 3, max_versions := 0,
    oldest_version := 1, updated_time := "t1" }

/-- A concrete version-metadata value. -/
def svm0 : SecretVersionMetadata :=
  { created_time := "t0", deletion_time := none, destroyed := false, version := 4 }

/-- A store that answers every request successfully. -/
def storeOk : Kv2 :=
  { readResp := fun _ _ => Except.ok "v",
    readVersionResp := fun _ _ _ => Except.ok "v",
    readMetadataResp := fun _ _ => Except.ok md0,
    setResp := fun _ _ _ => Except.ok svm0,
    setWithOptionsResp := fun _ _ _ _ => Except.ok svm0 }

/-- A store whose metadata endpoint fails with HTTP 404. -/
def store404meta : Kv2 :=
  { storeOk with
    readMetadataResp := fun _ _ => Except.error (ClientError.APIError 404 []) }

/-- A store whose secret-read endpoints fail with HTTP 404. -/
def store404read : Kv2 :=
  { storeOk with
    readResp := fun _ _ => Except.error (ClientError.APIError 404 []),
    readVersionResp := fun _ _ _ => Except.error (ClientError.APIError 404 []) }

/-- C1 counterexample: read_secrets_with_metadata is a read operation whose
metadata-fetch backing call can fail with HTTP 404, yet the operation then
returns the generic underlying-client error, not the path-not-found domain
error that C1 demands for every backing 404 during a read. -/
theorem C1_counterexample :
    (read_secrets_with_metadata cl0 store404meta none).1
      = Except.error (VaultierError.VaultClient (ClientError.APIError 404 [])) ∧
    (read_secrets_with_metadata cl0 store404meta none).1
      ≠ Except.error (VaultierError.PathNotFound ("m" ++ "/data/" ++ "base")) := by
  constructor
  · rfl
  · decide

/-- C1 (amended): the 404-to-PathNotFound translation applies to the
secret-read backing call (kv2::read / kv2::read_version) of all three read
operations, producing PathNotFound on the composed "<mount>/data/<path>";
any other secret-read failure is propagated as the underlying-client
error; a 404 from the metadata-fetch call of read_secrets_with_metadata is
propagated as the underlying-client error, untranslated. -/
theorem C1_read_404_translation (cl : SecretClient) (store : Kv2)
    (p path : String) (errs : List String) :
    (store.readResp cl.mount cl.base_path
        = Except.error (ClientError.APIError 404 errs) →
      (read_secrets cl store).1
        = Except.error (VaultierError.PathNotFound
            (cl.mount ++ "/data/" ++ cl.base_path))) ∧
    (store.readResp cl.mount (cl.base_path ++ "/" ++ p)
        = Except.error (ClientError.APIError 404 errs) →
      (read_secrets_from cl store p).1
        = Except.error (VaultierError.PathNotFound
            (cl.mount ++ "/data/" ++ (cl.base_path ++ "/" ++ p)))) ∧
    (∀ md, store.readMetadataResp cl.mount path = Except.ok md →
      store.readVersionResp cl.mount path md.current_version
        = Except.error (ClientError.APIError 404 errs) →
      (read_secrets_with_metadata cl store (some path)).1
        = Except.error (VaultierError.PathNotFound
            (cl.mount ++ "/data/" ++ path))) ∧
    (store.readMetadataResp cl.mount path
        = Except.error (ClientError.APIError 404 errs) →
      (read_secrets_with_metadata cl store (some path)).1
        = Except.error (VaultierError.VaultClient (ClientError.APIError 404 errs))) ∧
    (∀ e, store.readResp cl.mount cl.base_path = Except.error e →
      (∀ code errs2, e = ClientError.APIError code errs2 → code ≠ 404) →
      (read_secrets cl store).1 = Except.error (VaultierError.VaultClient e)) := by
  refine ⟨?_, ?_, ?_, ?_, ?_⟩
  · intro h
    simp [read_secrets, read_secrets_internal, translate404, h]
  · intro h
    simp [read_secrets_from, read_secrets_internal, translate404, h]
  · intro md hmd hv
    simp [read_secrets_with_metadata, read_secrets_internal, translate404, hmd, hv]
  · intro h
    simp [read_secrets_with_metadata, h]
  · intro e he hne
    cases e with
    | APIError code errs2 =>
      have hc : code ≠ 404 := hne code errs2 rfl
      simp [read_secrets, read_secrets_internal, translate404, he, hc]
    | other msg =>
      simp [read_secrets, read_secrets_internal, translate404, he]

/-- C1 witness: at the concrete fixtures, a 404 on the plain read becomes
PathNotFound, and a 404 on the metadata fetch stays the generic
underlying-client error. -/
theorem C1_read_404_translation_witness :
    (read_secrets cl0 store404read).1
      = Except.error (VaultierError.PathNotFound
          (cl0.mount ++ "/data/" ++ cl0.base_path)) ∧
    (read_secrets_with_metadata cl0 store404meta (some "p")).1
      = Except.error (VaultierError.VaultClient (ClientError.APIError 404 [])) :=
  ⟨(C1_read_404_translation cl0 store404read "p" "p" []).1 rfl,
   (C1_read_404_translation cl0 store404meta "p" "p" []).2.2.2.1 rfl⟩

/-- C2 counterexample: read_secrets_with_metadata (some "sub") hands the
store the sub-path verbatim ("sub"), not base_path joined with it
("base/sub") as the claim states for every sub-path-taking operation. -/
theorem C2_counterexample :
    (read_secrets_with_metadata cl0 storeOk (some "sub")).2
      = [StoreCall.readMetadata "m" "sub", StoreCall.readVersion "m" "sub" 3] ∧
    StoreCall.readMetadata "m" "sub"
      ≠ StoreCall.readMetadata "m" ("base" ++ "/" ++ "sub") := by
  constructor
  · rfl
  · decide

/-- C2 (amended): read_secrets_from and set_secrets_in hand the store
base_path ++ "/" ++ p; read_secrets and set_secrets use base_path alone;
read_secrets_with_metadata and set_secrets_with_options use the given
optional path verbatim as the full path, falling back to base_path when it
is absent. -/
theorem C2_path_composition (cl : SecretClient) (store : Kv2)
    (p : String) (d : Value) (v : Nat) :
    (read_secrets cl store).2 = [StoreCall.read cl.mount cl.base_path] ∧
    (read_secrets_from cl store p).2
      = [StoreCall.read cl.mount (cl.base_path ++ "/" ++ p)] ∧
    (set_secrets cl store d).2 = [StoreCall.set cl.mount cl.base_path d] ∧
    (set_secrets_in cl store p d).2
      = [StoreCall.set cl.mount (cl.base_path ++ "/" ++ p) d] ∧
    (read_secrets_with_metadata cl store (some p)).2.head?
      = some (StoreCall.readMetadata cl.mount p) ∧
    (read_secrets_with_metadata cl store none).2.head?
      = some (StoreCall.readMetadata cl.mount cl.base_path) ∧
    (set_secrets_with_options cl store
        { data := d, path := some p, version := some v }).2
      = [StoreCall.setWithOptions cl.mount p d v] ∧
    (set_secrets_with_options cl store
        { data := d, path := some p, version := none }).2
      = [StoreCall.set cl.mount p d] ∧
    (set_secrets_with_options cl store
        { data := d, path := none, version := some v }).2
      = [StoreCall.setWithOptions cl.mount cl.base_path d v] ∧
    (set_secrets_with_options cl store
        { data := d, path := none, version := none }).2
      = [StoreCall.set cl.mount cl.base_path d] := by
  refine ⟨rfl, rfl, ?_, ?_, ?_, ?_, ?_, ?_, ?_, ?_⟩
  · cases h : store.setResp cl.mount cl.base_path d <;>
      simp [set_secrets, set_secrets_internal, h]
  · cases h : store.setResp cl.mount (cl.base_path ++ "/" ++ p) d <;>
      simp [set_secrets_in, set_secrets_internal, h]
  · cases h : store.readMetadataResp cl.mount p with
    | error e => simp [read_secrets_with_metadata, h]
    | ok md =>
      cases h2 : translate404 cl.mount p
          (store.readVersionResp cl.mount p md.current_version) <;>
        simp [read_secrets_with_metadata, read_secrets_internal, h, h2]
  · cases h : store.readMetadataResp cl.mount cl.base_path with
    | error e => simp [read_secrets_with_metadata, h]
    | ok md =>
      cases h2 : translate404 cl.mount cl.base_path
          (store.readVersionResp cl.mount cl.base_path md.current_version) <;>
        simp [read_secrets_with_metadata, read_secrets_internal, h, h2]
  · cases h : store.setWithOptionsResp cl.mount p d v <;>
      simp [set_secrets_with_options, h]
  · cases h : store.setResp cl.mount p d <;>
      simp [set_secrets_with_options, h]
  · cases h : store.setWithOptionsResp cl.mount cl.base_path d v <;>
      simp [set_secrets_with_options, h]
  · cases h : store.setResp cl.mount cl.base_path d <;>
      simp [set_secrets_with_options, h]

/-- C3: an explicit token bypasses the token file entirely; token = none
reads VAULT_TOKEN_PATH, an unreadable file is the IO domain error, and a
builder rejection of the address is the configuration-builder domain
error. -/
theorem C3_token_resolution (env : VaultrsEnv) (fs : String → Option String)
    (address mount base_path : String) :
    (∀ t, SecretClient.new env fs address mount base_path (some t)
      = (create_internal env address mount base_path t, [])) ∧
    ((SecretClient.new env fs address mount base_path none).2
      = [VAULT_TOKEN_PATH]) ∧
    (fs VAULT_TOKEN_PATH = none →
      (SecretClient.new env fs address mount base_path none).1
        = Except.error (VaultierError.Io ("cannot open " ++ VAULT_TOKEN_PATH))) ∧
    (∀ t e, env.buildSettings address t = Except.error e →
      create_internal env address mount base_path t
        = Except.error (VaultierError.VaultClientSettings e)) := by
  refine ⟨fun t => rfl, ?_, ?_, ?_⟩
  · cases h : fs VAULT_TOKEN_PATH <;>
      simp [SecretClient.new, read_token_from, h]
  · intro h
    simp [SecretClient.new, read_token_from, h]
  · intro t e h
    simp [create_internal, h]

/-- A vaultrs-construction oracle whose settings builder rejects every
address. -/
def env0 : VaultrsEnv :=
  { buildSettings := fun _ _ => Except.error "invalid vault address",
    clientNew := fun s => Except.ok { settings := s } }

/-- A filesystem on which every file is unreadable. -/
def fsEmpty : String → Option String := fun _ => none

/-- C3 witness: with every file unreadable, construction without a token
fails with the IO error; with the builder rejecting the address,
create_internal fails with the configuration-builder error. -/
theorem C3_token_resolution_witness :
    (SecretClient.new env0 fsEmpty "addr" "m" "base" none).1
      = Except.error (VaultierError.Io ("cannot open " ++ VAULT_TOKEN_PATH)) ∧
    create_internal env0 "addr" "m" "base" "tok"
      = Except.error (VaultierError.VaultClientSettings "invalid vault address") :=
  ⟨(C3_token_resolution env0 fsEmpty "addr" "m" "base").2.2.1 rfl,
   (C3_token_resolution env0 fsEmpty "addr" "m" "base").2.2.2
     "tok" "invalid vault address" rfl⟩

/-- C4 counterexample: read_secrets_with_metadata issues two outbound
store calls (metadata fetch plus pinned read) on the success path, not
exactly one as the claim states for every operation. -/
theorem C4_counterexample :
    (read_secrets_with_metadata cl0 storeOk none).2.length = 2 ∧
    (read_secrets_with_metadata cl0 storeOk none).2.length ≠ 1 := by
  constructor
  · rfl
  · decide

/-- C4 (amended): read_secrets, read_secrets_from, set_secrets,
set_secrets_in and set_secrets_with_options each issue exactly one
outbound store call; read_secrets_with_metadata issues one call when the
metadata fetch fails and two (metadata fetch, then pinned read) when it
succeeds. -/
theorem C4_call_counts (cl : SecretClient) (store : Kv2) (p : String)
    (pOpt : Option String) (d : Value) (o : WriteSecretOptions)
    (e : ClientError) (md : ReadSecretMetadataResponse) :
    (read_secrets cl store).2.length = 1 ∧
    (read_secrets_from cl store p).2.length = 1 ∧
    (set_secrets cl store d).2.length = 1 ∧
    (set_secrets_in cl store p d).2.length = 1 ∧
    (set_secrets_with_options cl store o).2.length = 1 ∧
    (store.readMetadataResp cl.mount (pOpt.getD cl.base_path)
        = Except.error e →
      (read_secrets_with_metadata cl store pOpt).2.length = 1) ∧
    (store.readMetadataResp cl.mount (pOpt.getD cl.base_path)
        = Except.ok md →
      (read_secrets_with_metadata cl store pOpt).2.length = 2) := by
  refine ⟨rfl, rfl, ?_, ?_, ?_, ?_, ?_⟩
  · cases h : store.setResp cl.mount cl.base_path d <;>
      simp [set_secrets, set_secrets_internal, h]
  · cases h : store.setResp cl.mount (cl.base_path ++ "/" ++ p) d <;>
      simp [set_secrets_in, set_secrets_internal, h]
  · rcases o with ⟨d2, p2, v2⟩
    cases v2 with
    | some cas =>
      cases h : store.setWithOptionsResp cl.mount (p2.getD cl.base_path) d2 cas <;>
        simp [set_secrets_with_options, h]
    | none =>
      cases h : store.setResp cl.mount (p2.getD cl.base_path) d2 <;>
        simp [set_secrets_with_options, h]
  · intro h
    simp [read_secrets_with_metadata, h]
  · intro h
    cases h2 : translate404 cl.mount (pOpt.getD cl.base_path)
        (store.readVersionResp cl.mount (pOpt.getD cl.base_path)
          md.current_version) <;>
      simp [read_secrets_with_metadata, read_secrets_internal, h, h2]

/-- C4 witness: at the concrete fixtures, a successful metadata fetch
leads to two calls and a failed one to a single call. -/
theorem C4_call_counts_witness :
    (read_secrets_with_metadata cl0 storeOk none).2.length = 2 ∧
    (read_secrets_with_metadata cl0 store404meta none).2.length = 1 :=
  ⟨(C4_call_counts cl0 storeOk "p" none "d"
      { data := "d", path := none, version := none }
      (ClientError.other "") md0).2.2.2.2.2.2 rfl,
   (C4_call_counts cl0 store404meta "p" none "d"
      { data := "d", path := none, version := none }
      (ClientError.APIError 404 []) md0).2.2.2.2.2.1 rfl⟩

/-- C5: the enum declared in src/error.rs is not the closed taxonomy the
spec lists: it lacks PathNotFound, Api, Http and Json, yet the operations
in lib.rs and metadata.rs produce exactly those variants (a read hitting a
backing 404 yields PathNotFound, a non-200 metadata POST yields Api, a
transport failure yields the transport error, a JSON decode failure yields
the JSON error). -/
theorem C5_error_taxonomy :
    declaredErrorVariants ≠ specErrorVariants ∧
    (read_secrets cl0 store404read).1
      = Except.error (VaultierError.PathNotFound ("m" ++ "/data/" ++ "base")) ∧
    "PathNotFound" ∉ declaredErrorVariants ∧
    set_metadata_internal (HttpOutcome.response 403 (Except.ok "denied"))
        (fun _ => Except.ok svm0)
      = Except.error (VaultierError.Api 403 "denied") ∧
    "Api" ∉ declaredErrorVariants ∧
    set_metadata_internal (HttpOutcome.sendFail "conn reset")
        (fun _ => Except.ok svm0)
      = Except.error (VaultierError.Http "conn reset") ∧
    "Http" ∉ declaredErrorVariants ∧
    set_metadata_internal (HttpOutcome.response 200 (Except.ok "x"))
        (fun _ => Except.error "bad json")
      = Except.error (VaultierError.Json "bad json") ∧
    "Json" ∉ declaredErrorVariants := by
  refine ⟨by decide, rfl, by decide, rfl, by decide, rfl, by decide, rfl, by decide⟩

/-- C6: set_secrets and set_secrets_in pass the data to kv2::set and
return the store's version metadata on success; set_secrets_with_options
with a version performs the write through kv2::set_with_options with that
version as the cas value, and without a version through plain kv2::set,
returning the resulting version metadata in both cases. -/
theorem C6_set_operations (cl : SecretClient) (store : Kv2)
    (p : String) (d : Value) (v : Nat) (m : SecretVersionMetadata) :
    (store.setResp cl.mount cl.base_path d = Except.ok m →
      (set_secrets cl store d).1 = Except.ok m) ∧
    (store.setResp cl.mount (cl.base_path ++ "/" ++ p) d = Except.ok m →
      (set_secrets_in cl store p d).1 = Except.ok m) ∧
    ((set_secrets_with_options cl store
        { data := d, path := some p, version := some v }).2
      = [StoreCall.setWithOptions cl.mount p d v]) ∧
    (store.setWithOptionsResp cl.mount p d v = Except.ok m →
      (set_secrets_with_options cl store
          { data := d, path := some p, version := some v }).1 = Except.ok m) ∧
    ((set_secrets_with_options cl store
        { data := d, path := some p, version := none }).2
      = [StoreCall.set cl.mount p d]) ∧
    (store.setResp cl.mount p d = Except.ok m →
      (set_secrets_with_options cl store
          { data := d, path := some p, version := none }).1 = Except.ok m) := by
  refine ⟨?_, ?_, ?_, ?_, ?_, ?_⟩
  · intro h
    simp [set_secrets, set_secrets_internal, h]
  · intro h
    simp [set_secrets_in, set_secrets_internal, h]
  · cases h : store.setWithOptionsResp cl.mount p d v <;>
      simp [set_secrets_with_options, h]
  · intro h
    simp [set_secrets_with_options, h]
  · cases h : store.setResp cl.mount p d <;>
      simp [set_secrets_with_options, h]
  · intro h
    simp [set_secrets_with_options, h]

/-- C6 witness: against the all-successful store fixture, a plain set and
a cas-guarded set both return the store's version metadata. -/
theorem C6_set_operations_witness :
    (set_secrets cl0 storeOk "d").1 = Except.ok svm0 ∧
    (set_secrets_with_options cl0 storeOk
        { data := "d", path := some "p", version := some 2 }).1
      = Except.ok svm0 :=
  ⟨(C6_set_operations cl0 storeOk "p" "d" 2 svm0).1 rfl,
   (C6_set_operations cl0 storeOk "p" "d" 2 svm0).2.2.2.1 rfl⟩

/-- C7: on success read_secrets_with_metadata returns the fetched metadata
together with the secret read by a read-version call pinned at that
metadata's current_version, in that call order. -/
theorem C7_read_with_metadata (cl : SecretClient) (store : Kv2)
    (path : String) (md : ReadSecretMetadataResponse) (v : Value) :
    store.readMetadataResp cl.mount path = Except.ok md →
    store.readVersionResp cl.mount path md.current_version = Except.ok v →
    (read_secrets_with_metadata cl store (some path)).1
      = Except.ok { data := v, metadata := md } ∧
    (read_secrets_with_metadata cl store (some path)).2
      = [StoreCall.readMetadata cl.mount path,
         StoreCall.readVersion cl.mount path md.current_version] := by
  intro hmd hv
  constructor <;>
    simp [read_secrets_with_metadata, read_secrets_internal, translate404, hmd, hv]

/-- C7 witness: against the all-successful store fixture the bundled
result carries md0 and the value read at version 3 = md0.current_version. -/
theorem C7_read_with_metadata_witness :
    (read_secrets_with_metadata cl0 storeOk (some "p")).1
      = Except.ok { data := "v", metadata := md0 } ∧
    (read_secrets_with_metadata cl0 storeOk (some "p")).2
      = [StoreCall.readMetadata "m" "p", StoreCall.readVersion "m" "p" 3] :=
  C7_read_with_metadata cl0 storeOk "p" md0 "v" rfl rfl

/-- C8: every public operation borrows the client immutably; running any
operation returns the client state with connection handle, mount and base
path unchanged, whether the store call succeeds or fails. -/
theorem C8_client_immutable (self : SecretClient) (store : Kv2)
    (op : Operation) :
    (self.run store op).2 = self ∧
    (self.run store op).2.mount = self.mount ∧
    (self.run store op).2.base_path = self.base_path ∧
    (self.run store op).2.client = self.client := by
  cases op <;> exact ⟨rfl, rfl, rfl, rfl⟩

/-- C9: the auth helper resolves the JWT from the K8S_JWT environment
variable when the lookup succeeds, without touching the filesystem; only
on lookup failure does it read the mounted service-account token file. -/
theorem C9_jwt_env_precedence (envVar fs : String → Option String) :
    (∀ t, envVar K8S_JWT = some t →
      service_account_jwt envVar fs = (Except.ok t, [])) ∧
    (envVar K8S_JWT = none →
      service_account_jwt envVar fs = read_token_from fs SERVICE_TOKEN_PATH) := by
  constructor
  · intro t h
    simp [service_account_jwt, h]
  · intro h
    simp [service_account_jwt, h]

/-- An environment in which only K8S_JWT is set. -/
def envWithJwt : String → Option String :=
  fun s => if s = "K8S_JWT" then some "jwt0" else none

/-- C9 witness: with K8S_JWT set the JWT comes from the environment and no
file is opened; with an empty environment the helper is exactly the
token-file read. -/
theorem C9_jwt_env_precedence_witness :
    service_account_jwt envWithJwt fsEmpty = (Except.ok "jwt0", []) ∧
    service_account_jwt fsEmpty fsEmpty
      = read_token_from fsEmpty SERVICE_TOKEN_PATH :=
  ⟨(C9_jwt_env_precedence envWithJwt fsEmpty).1 "jwt0" rfl,
   (C9_jwt_env_precedence fsEmpty fsEmpty).2 rfl⟩

/-- C10: a backing HTTP 404 during any set operation surfaces as the
generic underlying-client error wrapping the original APIError; the
PathNotFound translation is applied by the read path only. -/
theorem C10_set_404_not_translated (cl : SecretClient) (store : Kv2)
    (p : String) (d : Value) (v : Nat) (errs : List String) :
    (store.setResp cl.mount cl.base_path d
        = Except.error (ClientError.APIError 404 errs) →
      (set_secrets cl store d).1
        = Except.error (VaultierError.VaultClient (ClientError.APIError 404 errs))) ∧
    (store.setResp cl.mount cl.base_path d
        = Except.error (ClientError.APIError 404 errs) →
      ∀ q, (set_secrets cl store d).1
        ≠ Except.error (VaultierError.PathNotFound q)) ∧
    (store.setResp cl.mount (cl.base_path ++ "/" ++ p) d
        = Except.error (ClientError.APIError 404 errs) →
      (set_secrets_in cl store p d).1
        = Except.error (VaultierError.VaultClient (ClientError.APIError 404 errs))) ∧
    (store.setWithOptionsResp cl.mount p d v
        = Except.error (ClientError.APIError 404 errs) →
      (set_secrets_with_options cl store
          { data := d, path := some p, version := some v }).1
        = Except.error (VaultierError.VaultClient (ClientError.APIError 404 errs))) ∧
    (store.setResp cl.mount p d
        = Except.error (ClientError.APIError 404 errs) →
      (set_secrets_with_options cl store
          { data := d, path := some p, version := none }).1
        = Except.error (VaultierError.VaultClient (ClientError.APIError 404 errs))) := by
  refine ⟨?_, ?_, ?_, ?_, ?_⟩
  · intro h
    simp [set_secrets, set_secrets_internal, h]
  · intro h q
    simp [set_secrets, set_secrets_internal, h]
  · intro h
    simp [set_secrets_in, set_secrets_internal, h]
  · intro h
    simp [set_secrets_with_options, h]
  · intro h
    simp [set_secrets_with_options, h]

/-- A store whose set endpoints fail with HTTP 404. -/
def store404set : Kv2 :=
  { storeOk with
    setResp := fun _ _ _ => Except.error (ClientError.APIError 404 []),
    setWithOptionsResp := fun _ _ _ _ => Except.error (ClientError.APIError 404 []) }

/-- C10 witness: at the concrete 404-on-set store, both a plain set and a
cas-guarded set surface the generic underlying-client error. -/
theorem C10_set_404_not_translated_witness :
    (set_secrets cl0 store404set "d").1
      = Except.error (VaultierError.VaultClient (ClientError.APIError 404 [])) ∧
    (set_secrets_with_options cl0 store404set
        { data := "d", path := some "p", version := some 1 }).1
      = Except.error (VaultierError.VaultClient (ClientError.APIError 404 [])) :=
  ⟨(C10_set_404_not_translated cl0 store404set "p" "d" 1 []).1 rfl,
   (C10_set_404_not_translated cl0 store404set "p" "d" 1 []).2.2.2.1 rfl⟩

end Vaultier
